import Mathlib

/-!
Formal model of the WebVid dataset clip-sampling algorithm from
`lvdm/data/webvid.py` (class `WebVid`).

The Python class wraps a metadata table and a video decoder behind an
indexable retry-on-failure sampling interface.  We embed `__getitem__` as a
fuel-indexed loop (`getLoop`) over an explicit per-attempt step function
(`attempt`), with the decoder, the metadata table and the spatial transform
modelled as black-box collaborators (a `Corpus` and an optional shape
function).  Randomness (`random.randint`) is modelled by explicit draw
arguments: `strideDraw` for the single per-call stride draw (source lines
99-103) and a stream `draws : ℕ → ℤ` for the per-attempt window-start draws
(source line 158).  Float arithmetic of the source is modelled exactly over
`ℚ`; Python `int()` is truncation toward zero (`pyInt`), Python `//` on
non-negative operands is `Nat` division / `Int.floor`.
-/

namespace WebVid

/-- Python `int()` applied to a rational: truncation toward zero. -/
def pyInt (q : ℚ) : ℤ := if 0 ≤ q then ⌊q⌋ else -⌊-q⌋

/-- The decoder's view of one successfully opened video file: frame count,
average fps, the decoded spatial size and channel count, and a black-box
predicate telling whether `get_batch` succeeds on a given index list. -/
structure VideoFile where
  frame_count : ℕ
  avg_fps : ℚ
  height : ℕ
  width : ℕ
  channels : ℕ
  decode_ok : List ℤ → Bool

/-- One metadata row (post `_load_metadata`: `name` renamed to `caption`). -/
structure Row where
  videoid : String
  page_dir : String
  caption : String

/-- The metadata table together with the decoder's behaviour on each row's
file: `openFile i = none` models `VideoReader` raising on row `i`'s path. -/
structure Corpus where
  rowCount : ℕ
  rows : ℕ → Row
  openFile : ℕ → Option VideoFile

/-- Constructor configuration of the `WebVid` class (the fields that the
sampling algorithm reads). -/
structure Config where
  data_dir : String
  video_length : ℕ
  resolution : Option (ℕ × ℕ)
  frame_stride : ℤ
  frame_stride_min : ℤ
  fps_max : Option ℤ
  fixed_fps : Option ℚ
  random_fs : Bool

/-- Path resolution (`_get_video_path`, source lines 92-96): join data
root, `videos`, the shard dir and `<videoid>.mp4`. -/
def getVideoPath (data_dir : String) (r : Row) : String :=
  data_dir ++ "/videos/" ++ r.page_dir ++ "/" ++ r.videoid ++ ".mp4"

/-- Spatial transform policies recognized at construction (lines 57-73). -/
inductive SpatialPolicy where
  | randomCrop
  | centerCrop
  | resizeCenterCrop
  | resize
deriving DecidableEq

/-- The construction-time dispatch on the spatial-transform policy name
(source lines 57-75): `None` is passthrough, the four recognized names
build a policy, anything else raises `NotImplementedError`. -/
def mkSpatialTransform : Option String → Except Unit (Option SpatialPolicy)
  | none => Except.ok none
  | some s =>
    if s = "random_crop" then Except.ok (some SpatialPolicy.randomCrop)
    else if s = "center_crop" then Except.ok (some SpatialPolicy.centerCrop)
    else if s = "resize_center_crop" then Except.ok (some SpatialPolicy.resizeCenterCrop)
    else if s = "resize" then Except.ok (some SpatialPolicy.resize)
    else Except.error ()

/-- Line 137-138: `int(frame_stride * (1.0 * fps_ori / self.fixed_fps))`
when a fixed fps is configured, identity otherwise. -/
def rescaleStride (fixed_fps : Option ℚ) (s : ℤ) (fps_ori : ℚ) : ℤ :=
  match fixed_fps with
  | some f => pyInt ((s : ℚ) * (fps_ori / f))
  | none => s

/-- Lines 136-141: fixed-fps rescale followed by `max(frame_stride, 1)`. -/
def clampedStride (fixed_fps : Option ℚ) (s : ℤ) (fps_ori : ℚ) : ℤ :=
  max (rescaleStride fixed_fps s fps_ori) 1

/-- Line 144: `required_frame_num = frame_stride * (self.video_length - 1) + 1`. -/
def requiredOf (video_length : ℕ) (s : ℤ) : ℤ :=
  s * ((video_length : ℤ) - 1) + 1

/-- Line 152: fallback stride `frame_num // self.video_length`. -/
def fallbackStride (frame_num video_length : ℕ) : ℕ :=
  frame_num / video_length

/-- Lines 162-164: `[start_idx + frame_stride * i for i in range(video_length)]`. -/
def frameIndices (video_length : ℕ) (start_idx s : ℤ) : List ℤ :=
  (List.range video_length).map (fun i : ℕ => start_idx + s * (i : ℤ))

/-- Lines 157-159: `random.randint(0, random_range) if random_range > 0 else 0`;
`startDraw` is the drawn value. -/
def startIdx (startDraw : ℤ) (frame_num required : ℤ) : ℤ :=
  if 0 < frame_num - required then startDraw else 0

/-- The data carried out of the retry loop on success: everything the
post-processing code (lines 192-231) reads.  `tcount` is the number of
frames the decoder returned (`frames.shape[0]`), which by the decoder
contract is the length of the requested index list. -/
structure LoopOut where
  video_path : String
  caption : String
  fps_ori : ℚ
  frame_stride : ℤ
  frame_num : ℕ
  tcount : ℕ
  fheight : ℕ
  fwidth : ℕ
  fchannels : ℕ
deriving DecidableEq

/-- Result of one iteration of the `while True` loop: either retry with a
new running index and the current working stride, or exit with `LoopOut`. -/
inductive StepResult where
  | retry (index : ℤ) (s : ℤ)
  | success (out : LoopOut)
deriving DecidableEq

/-- Lines 156-173: random window selection, index construction and the
`get_batch` attempt; on decode failure advance the index keeping the
working stride. -/
def selectWindow (cfg : Config) (startDraw : ℤ) (vf : VideoFile)
    (vp cap : String) (index s required : ℤ) : StepResult :=
  if vf.decode_ok (frameIndices cfg.video_length
      (startIdx startDraw (vf.frame_count : ℤ) required) s) then
    StepResult.success
      ⟨vp, cap, vf.avg_fps, s, vf.frame_count,
        (frameIndices cfg.video_length
          (startIdx startDraw (vf.frame_count : ℤ) required) s).length,
        vf.height, vf.width, vf.channels⟩
  else StepResult.retry (index + 1) s

/-- Lines 135-173: everything after a successful open and length check.
Rescale and clamp the stride, check the required span, possibly drop the
row (fixed-fps too-short case, line 148) or fall back to a coarser stride
(lines 152-154), then select the window and decode. -/
def afterOpen (cfg : Config) (startDraw : ℤ) (vf : VideoFile)
    (vp cap : String) (index s0 : ℤ) : StepResult :=
  if (vf.frame_count : ℤ) <
      requiredOf cfg.video_length (clampedStride cfg.fixed_fps s0 vf.avg_fps) then
    if cfg.fixed_fps.isSome ∧
        ((vf.frame_count : ℚ) <
          ((requiredOf cfg.video_length
            (clampedStride cfg.fixed_fps s0 vf.avg_fps) : ℤ) : ℚ) * (1 / 2)) then
      StepResult.retry (index + 1) (clampedStride cfg.fixed_fps s0 vf.avg_fps)
    else
      selectWindow cfg startDraw vf vp cap index
        ((fallbackStride vf.frame_count cfg.video_length : ℕ) : ℤ)
        (requiredOf cfg.video_length
          ((fallbackStride vf.frame_count cfg.video_length : ℕ) : ℤ))
  else
    selectWindow cfg startDraw vf vp cap index
      (clampedStride cfg.fixed_fps s0 vf.avg_fps)
      (requiredOf cfg.video_length (clampedStride cfg.fixed_fps s0 vf.avg_fps))

/-- One iteration of the `while True` loop (lines 107-173): wrap the index
modulo the row count, resolve the path, open the file (failure: skip with
unchanged stride), check the length (too short: skip with unchanged
stride), then proceed to `afterOpen`. -/
def attempt (cfg : Config) (c : Corpus) (startDraw : ℤ) (index s0 : ℤ) : StepResult :=
  match c.openFile (index % (c.rowCount : ℤ)).toNat with
  | none => StepResult.retry (index % (c.rowCount : ℤ) + 1) s0
  | some vf =>
    if vf.frame_count < cfg.video_length then
      StepResult.retry (index % (c.rowCount : ℤ) + 1) s0
    else
      afterOpen cfg startDraw vf
        (getVideoPath cfg.data_dir (c.rows (index % (c.rowCount : ℤ)).toNat))
        (c.rows (index % (c.rowCount : ℤ)).toNat).caption
        (index % (c.rowCount : ℤ)) s0

/-- The retry loop, fuel-indexed: `t` counts attempts (indexing the start
draw stream), `index` and `s` are the running index and working stride.
`none` means the loop has not terminated within `fuel` iterations. -/
def getLoop (cfg : Config) (c : Corpus) (draws : ℕ → ℤ) :
    ℕ → ℕ → ℤ → ℤ → Option LoopOut
  | 0, _, _, _ => none
  | fuel + 1, t, index, s =>
    match attempt cfg c (draws t) index s with
    | StepResult.success out => some out
    | StepResult.retry i' s' => getLoop cfg c draws fuel (t + 1) i' s'

/-- Shape of a 4-dimensional tensor. -/
structure Shape4 where
  d0 : ℕ
  d1 : ℕ
  d2 : ℕ
  d3 : ℕ
deriving DecidableEq

/-- Application of the configured spatial transform (a black-box shape
function, `None` is passthrough) — line 198-199. -/
def transApply : Option (Shape4 → Shape4) → Shape4 → Shape4
  | none, sh => sh
  | some f, sh => f sh

/-- Line 194-195: permute `[t,h,w,c] -> [c,t,h,w]` (shape level). -/
def permuted (out : LoopOut) : Shape4 :=
  ⟨out.fchannels, out.tcount, out.fheight, out.fwidth⟩

/-- Lines 210-213: the post-transform resolution assertion. -/
def resolutionOk (res : Option (ℕ × ℕ)) (sh : Shape4) : Bool :=
  match res with
  | some (rh, rw) => sh.d2 == rh && sh.d3 == rw
  | none => true

/-- Lines 217-219: `fps_clip = fps_ori // frame_stride` (float floor
division), then capped at `fps_max` when configured. -/
def clipFps (fps_max : Option ℤ) (q : ℚ) : ℚ :=
  match fps_max with
  | some m => if q > (m : ℚ) then (m : ℚ) else q
  | none => q

/-- The returned sample record (line 221-227); the video tensor is
modelled at shape level (`C×T×H×W`). -/
structure Sample where
  videoShape : Shape4
  caption : String
  path : String
  fps : ℚ
  frame_stride : ℤ
deriving DecidableEq

/-- Overall result of `__getitem__`: `diverge` when the retry loop did not
finish within the fuel bound, `assertFail` when one of the two `assert`
statements (lines 192, 211) fires, `ok` on a returned sample. -/
inductive GetResult where
  | diverge
  | assertFail
  | ok (s : Sample)
deriving DecidableEq

/-- Lines 192-231: the post-processing after the loop exits — frame-count
assertion, permute, spatial transform, resolution assertion, fps
computation (pixel normalization does not change the shape). -/
def postprocess (cfg : Config) (st : Option (Shape4 → Shape4)) (out : LoopOut) :
    GetResult :=
  if out.tcount ≠ cfg.video_length then GetResult.assertFail
  else if resolutionOk cfg.resolution (transApply st (permuted out)) then
    GetResult.ok
      ⟨transApply st (permuted out), out.caption, out.video_path,
        clipFps cfg.fps_max ((⌊out.fps_ori / (out.frame_stride : ℚ)⌋ : ℤ) : ℚ),
        out.frame_stride⟩
  else GetResult.assertFail

/-- Retrieval (`__getitem__`, lines 98-231): draw the per-call stride
(lines 99-103: once, before the loop), run the retry loop, post-process. -/
def getitem (cfg : Config) (c : Corpus) (st : Option (Shape4 → Shape4))
    (strideDraw : ℤ) (draws : ℕ → ℤ) (fuel : ℕ) (index : ℤ) : GetResult :=
  match getLoop cfg c draws fuel 0 index
      (if cfg.random_fs then strideDraw else cfg.frame_stride) with
  | none => GetResult.diverge
  | some out => postprocess cfg st out

/-- A start-draw stream that always returns 0 (used for concrete runs). -/
def dZero : ℕ → ℤ := fun _ => 0

/-! ## Comparison definitions taken from the spec's words -/

/-- The stride rescale as the spec words it (for comparison with
`rescaleStride` and the clamp): round to nearest, then clamp to a
minimum of 1. -/
def specRoundStride (s : ℤ) (fps target : ℚ) : ℤ :=
  max (round ((s : ℚ) * (fps / target))) 1

/-- The retry loop as the spec words stride selection: when randomization
is enabled a fresh uniform stride (`strideDraws t` for attempt `t`) is
drawn per attempt, instead of once per call (comparison definition; the
code's loop is `getLoop`, whose working stride is drawn before the loop
and carried across attempts). -/
def specLoopFreshDraw (cfg : Config) (c : Corpus) (strideDraws draws : ℕ → ℤ) :
    ℕ → ℕ → ℤ → Option LoopOut
  | 0, _, _ => none
  | fuel + 1, t, index =>
    match attempt cfg c (draws t) index
        (if cfg.random_fs then strideDraws t else cfg.frame_stride) with
    | StepResult.success out => some out
    | StepResult.retry i' _ => specLoopFreshDraw cfg c strideDraws draws fuel (t + 1) i'

/-! ## Concrete corpora and configurations used by witnesses and
counterexamples -/

/-- A healthy 200-frame, 30 fps file that always decodes. -/
def vfGood : VideoFile := ⟨200, 30, 300, 530, 3, fun _ => true⟩

/-- One-row corpus holding `vfGood`. -/
def corpW : Corpus := ⟨1, fun _ => ⟨"7", "p", "cap"⟩, fun _ => some vfGood⟩

/-- Plain configuration: clip length 4, stride 2, resolution (300, 530),
no fixed fps, no randomization. -/
def cfgW : Config := ⟨"d", 4, some (300, 530), 2, 1, none, none, false⟩

/-- The loop output of `getitem cfgW corpW` at index 0. -/
def outW : LoopOut := ⟨"d/videos/p/7.mp4", "cap", 30, 2, 200, 4, 300, 530, 3⟩

/-- The sample returned by `getitem cfgW corpW` at index 0. -/
def sampleW : Sample := ⟨⟨3, 4, 300, 530⟩, "cap", "d/videos/p/7.mp4", 15, 2⟩

/-- Corpus on which every open fails (all rows unusable). -/
def corpBad : Corpus := ⟨3, fun _ => ⟨"1", "p", "c"⟩, fun _ => none⟩

/-- Minimal configuration for the unbounded-retry runs. -/
def cfgBasic : Config := ⟨"d", 4, none, 1, 1, none, none, false⟩

/-- Configuration with a fixed target fps of 10 and base stride 1. -/
def cfg3 : Config := ⟨"d", 4, none, 1, 1, none, some 10, false⟩

/-- One-row corpus with a 29 fps, 100-frame file that always decodes. -/
def corp3 : Corpus :=
  ⟨1, fun _ => ⟨"7", "p", "c"⟩, fun _ => some ⟨100, 29, 300, 530, 3, fun _ => true⟩⟩

/-- Randomized-stride configuration with stride bounds [1, 5]. -/
def cfg4 : Config := ⟨"d", 4, none, 5, 1, none, none, true⟩

/-- A healthy 100-frame 30 fps file that always decodes. -/
def vfT : VideoFile := ⟨100, 30, 300, 530, 3, fun _ => true⟩

/-- Two-row corpus: row 0 fails to open, row 1 is healthy. -/
def corp4 : Corpus :=
  ⟨2, fun _ => ⟨"1", "p", "c"⟩, fun j => if j = 0 then none else some vfT⟩

/-- Per-attempt stride draw stream: 1 for attempt 0, 5 afterwards (both in
the configured range [1, 5] of `cfg4`). -/
def sds4 : ℕ → ℤ := fun t => if t = 0 then 1 else 5

/-- Fixed-fps (target 10) configuration with base stride 1. -/
def cfg10 : Config := ⟨"d", 4, none, 1, 1, none, some 10, false⟩

/-- A 200-frame 30 fps file on which every decode fails. -/
def vf0 : VideoFile := ⟨200, 30, 300, 530, 3, fun _ => false⟩

/-- A 200-frame 30 fps file on which every decode succeeds. -/
def vf1 : VideoFile := ⟨200, 30, 300, 530, 3, fun _ => true⟩

/-- Two-row corpus: row 0 opens but never decodes, row 1 is healthy. -/
def corp10 : Corpus :=
  ⟨2, fun _ => ⟨"1", "p", "c"⟩, fun j => if j = 0 then some vf0 else some vf1⟩

/-- The sample returned by `getitem cfg3 corp3` at index 0. -/
def sample3 : Sample := ⟨⟨3, 4, 300, 530⟩, "c", "d/videos/p/7.mp4", 14, 2⟩

/-- The sample returned by `getitem cfg4 corp4` at index 0 with per-call
stride draw 3. -/
def sample4 : Sample := ⟨⟨3, 4, 300, 530⟩, "c", "d/videos/p/1.mp4", 10, 3⟩

/-- The sample returned by `getitem cfg4 corp4` at index 0 with per-call
stride draw 1. -/
def sample4a : Sample := ⟨⟨3, 4, 300, 530⟩, "c", "d/videos/p/1.mp4", 30, 1⟩

/-! ## Evaluations of the model on the concrete corpora -/

theorem runW : getitem cfgW corpW none 0 dZero 3 0 = GetResult.ok sampleW := by
  norm_num [getitem, getLoop, attempt, afterOpen, selectWindow, postprocess,
    cfgW, corpW, vfGood, sampleW, dZero, clampedStride, rescaleStride, pyInt,
    requiredOf, fallbackStride, frameIndices, startIdx, getVideoPath,
    transApply, permuted, resolutionOk, clipFps]
  rfl

theorem loopW : getLoop cfgW corpW dZero 3 0 0 2 = some outW := by
  norm_num [getLoop, attempt, afterOpen, selectWindow,
    cfgW, corpW, vfGood, outW, dZero, clampedStride, rescaleStride, pyInt,
    requiredOf, fallbackStride, frameIndices, startIdx, getVideoPath]
  rfl

theorem postW : postprocess cfgW none outW = GetResult.ok sampleW := by
  norm_num [postprocess, cfgW, outW, sampleW, transApply, permuted,
    resolutionOk, clipFps]

theorem run3 : getitem cfg3 corp3 none 0 dZero 3 0 = GetResult.ok sample3 := by
  norm_num [getitem, getLoop, attempt, afterOpen, selectWindow, postprocess,
    cfg3, corp3, sample3, dZero, clampedStride, rescaleStride, pyInt,
    requiredOf, fallbackStride, frameIndices, startIdx, getVideoPath,
    transApply, permuted, resolutionOk, clipFps]
  rfl

theorem run4 : getitem cfg4 corp4 none 3 dZero 3 0 = GetResult.ok sample4 := by
  norm_num [getitem, getLoop, attempt, afterOpen, selectWindow, postprocess,
    cfg4, corp4, vfT, sample4, dZero, clampedStride, rescaleStride, pyInt,
    requiredOf, fallbackStride, frameIndices, startIdx, getVideoPath,
    transApply, permuted, resolutionOk, clipFps]
  rfl

theorem run4a : getitem cfg4 corp4 none (sds4 0) dZero 3 0 = GetResult.ok sample4a := by
  norm_num [getitem, getLoop, attempt, afterOpen, selectWindow, postprocess,
    cfg4, corp4, vfT, sample4a, sds4, dZero, clampedStride, rescaleStride, pyInt,
    requiredOf, fallbackStride, frameIndices, startIdx, getVideoPath,
    transApply, permuted, resolutionOk, clipFps]
  rfl

theorem run4spec :
    (match specLoopFreshDraw cfg4 corp4 sds4 dZero 3 0 0 with
     | some out => out.frame_stride
     | none => 0) = 5 := by
  norm_num [specLoopFreshDraw, attempt, afterOpen, selectWindow,
    cfg4, corp4, vfT, sds4, dZero, clampedStride, rescaleStride, pyInt,
    requiredOf, fallbackStride, frameIndices, startIdx, getVideoPath]

/-! ## General lemmas about the loop body -/

/-- The requested index list always has exactly `video_length` entries. -/
theorem frameIndices_length (L : ℕ) (st s : ℤ) : (frameIndices L st s).length = L := by
  simp only [frameIndices, List.length_map, List.length_range]

/-- One loop iteration only reads the running index modulo the row count. -/
theorem attempt_emod (cfg : Config) (c : Corpus) (d i s0 : ℤ) :
    attempt cfg c d i s0 = attempt cfg c d (i % (c.rowCount : ℤ)) s0 := by
  unfold attempt
  rw [Int.emod_emod_of_dvd _ dvd_rfl]

/-- The whole loop only reads the starting index modulo the row count. -/
theorem getLoop_emod (cfg : Config) (c : Corpus) (d : ℕ → ℤ) (fuel t : ℕ) (i s : ℤ) :
    getLoop cfg c d fuel t i s = getLoop cfg c d fuel t (i % (c.rowCount : ℤ)) s := by
  cases fuel with
  | zero => rfl
  | succ fuel =>
    rw [getLoop, getLoop, attempt_emod cfg c (d t) i s,
      attempt_emod cfg c (d t) (i % (c.rowCount : ℤ)) s,
      Int.emod_emod_of_dvd _ dvd_rfl]

/-- On a corpus where every open fails the loop never exits, whatever the
fuel: there is no retry bound and no fatal exhaustion error. -/
theorem getLoop_allOpenFail (cfg : Config) (c : Corpus) (d : ℕ → ℤ)
    (hbad : ∀ j, c.openFile j = none) :
    ∀ (fuel t : ℕ) (i s : ℤ), getLoop cfg c d fuel t i s = none := by
  intro fuel
  induction fuel with
  | zero => intro t i s; rfl
  | succ fuel ih =>
    intro t i s
    have ha : attempt cfg c (d t) i s =
        StepResult.retry (i % (c.rowCount : ℤ) + 1) s := by
      unfold attempt
      rw [hbad]
    rw [getLoop, ha]
    exact ih (t + 1) _ s

/-- What a successful window selection returns: the stride it was given,
exactly `video_length` decoded frames, and the file's frame count. -/
theorem selectWindow_success (cfg : Config) (sd : ℤ) (vf : VideoFile)
    (vp cap : String) (i s req : ℤ) (out : LoopOut)
    (h : selectWindow cfg sd vf vp cap i s req = StepResult.success out) :
    out.frame_stride = s ∧ out.tcount = cfg.video_length ∧
    out.frame_num = vf.frame_count := by
  unfold selectWindow at h
  split_ifs at h with hd
  · injection h with h
    subst h
    exact ⟨rfl, frameIndices_length _ _ _, rfl⟩

/-- After a successful open and length check, a successful exit carries a
working stride of at least 1 (from the clamp, or from the fallback
`frame_num // video_length` with `video_length ≤ frame_num`) and exactly
`video_length` frames. -/
theorem afterOpen_success (cfg : Config) (sd : ℤ) (vf : VideoFile)
    (vp cap : String) (i s0 : ℤ) (out : LoopOut)
    (hlen : cfg.video_length ≤ vf.frame_count)
    (h : afterOpen cfg sd vf vp cap i s0 = StepResult.success out) :
    1 ≤ out.frame_stride ∧ out.tcount = cfg.video_length := by
  have hcl : 1 ≤ clampedStride cfg.fixed_fps s0 vf.avg_fps := le_max_right _ _
  unfold afterOpen at h
  split_ifs at h with h1 h2
  · obtain ⟨hs, ht, _⟩ := selectWindow_success _ _ _ _ _ _ _ _ _ h
    refine ⟨?_, ht⟩
    rw [hs]
    have hL : 0 < cfg.video_length := by
      by_contra hL0
      have hL0' : cfg.video_length = 0 := by omega
      rw [hL0'] at h1
      unfold requiredOf at h1
      push_cast at h1
      have hnn : (0 : ℤ) ≤ (vf.frame_count : ℤ) := Int.natCast_nonneg _
      linarith
    have hdiv : 1 ≤ fallbackStride vf.frame_count cfg.video_length :=
      (Nat.one_le_div_iff hL).2 hlen
    exact_mod_cast hdiv
  · obtain ⟨hs, ht, _⟩ := selectWindow_success _ _ _ _ _ _ _ _ _ h
    exact ⟨hs ▸ hcl, ht⟩

/-- A successful loop iteration yields a working stride of at least 1 and
exactly `video_length` frames. -/
theorem attempt_success (cfg : Config) (c : Corpus) (d i s0 : ℤ) (out : LoopOut)
    (h : attempt cfg c d i s0 = StepResult.success out) :
    1 ≤ out.frame_stride ∧ out.tcount = cfg.video_length := by
  unfold attempt at h
  split at h
  · exact StepResult.noConfusion h
  · rename_i vf heq
    split_ifs at h with hl
    exact afterOpen_success _ _ _ _ _ _ _ _ (Nat.le_of_not_lt hl) h

/-- A successful loop exit yields a working stride of at least 1 and
exactly `video_length` frames, whatever the fuel or entry state. -/
theorem getLoop_success (cfg : Config) (c : Corpus) (d : ℕ → ℤ) :
    ∀ (fuel t : ℕ) (i s : ℤ) (out : LoopOut),
      getLoop cfg c d fuel t i s = some out →
      1 ≤ out.frame_stride ∧ out.tcount = cfg.video_length := by
  intro fuel
  induction fuel with
  | zero => intro t i s out h; exact Option.noConfusion h
  | succ fuel ih =>
    intro t i s out h
    rw [getLoop] at h
    split at h
    · rename_i out' heq
      injection h with h
      subst h
      exact attempt_success _ _ _ _ _ _ heq
    · rename_i i' s' heq
      exact ih _ _ _ _ h

/-- What the post-processing returns on success: the sample is built from
the loop output with the capped floor-division fps, the frame-count
assertion held, and the resolution assertion held. -/
theorem postprocess_ok (cfg : Config) (st : Option (Shape4 → Shape4))
    (out : LoopOut) (smp : Sample)
    (h : postprocess cfg st out = GetResult.ok smp) :
    smp = ⟨transApply st (permuted out), out.caption, out.video_path,
      clipFps cfg.fps_max ((⌊out.fps_ori / (out.frame_stride : ℚ)⌋ : ℤ) : ℚ),
      out.frame_stride⟩ ∧
    out.tcount = cfg.video_length ∧
    resolutionOk cfg.resolution (transApply st (permuted out)) = true := by
  unfold postprocess at h
  split_ifs at h with h1 h2
  · injection h with h
    exact ⟨h.symm, not_ne_iff.mp h1, h2⟩

/-! ## Claims -/

/-- C9: construction raises a fatal error if and only if a non-null
spatial-transform policy name is given that is not one of `random_crop`,
`center_crop`, `resize_center_crop`, `resize`; a null policy and every
recognized name construct successfully. -/
theorem transform_policy_validation (name : Option String) :
    (∃ p, mkSpatialTransform name = Except.ok p) ↔
      (name = none ∨ name = some "random_crop" ∨ name = some "center_crop" ∨
       name = some "resize_center_crop" ∨ name = some "resize") := by
  cases name with
  | none => simp [mkSpatialTransform]
  | some s =>
    simp only [mkSpatialTransform]
    split_ifs with h1 h2 h3 h4 <;> simp_all

/-- C8: for every integer `k` and non-empty metadata table,
`get(row_count + k)` behaves identically to `get(k)`: the row selected at
every attempt is the running index reduced modulo `row_count`. -/
theorem index_wraparound (cfg : Config) (c : Corpus) (st : Option (Shape4 → Shape4))
    (sd : ℤ) (d : ℕ → ℤ) (fuel : ℕ) (k : ℤ) (hn : 0 < c.rowCount) :
    getitem cfg c st sd d fuel ((c.rowCount : ℤ) + k) =
      getitem cfg c st sd d fuel k := by
  unfold getitem
  rw [getLoop_emod cfg c d fuel 0 ((c.rowCount : ℤ) + k) _,
    getLoop_emod cfg c d fuel 0 k _,
    (by ring : (c.rowCount : ℤ) + k = k + (c.rowCount : ℤ) * 1),
    Int.add_mul_emod_self_left]

/-- Witness for C8 at a concrete corpus and index. -/
theorem index_wraparound_witness :
    getitem cfgW corpW none 0 dZero 3 ((corpW.rowCount : ℤ) + 4) =
      getitem cfgW corpW none 0 dZero 3 4 :=
  index_wraparound cfgW corpW none 0 dZero 3 4 (by decide)

/-- C2 counterexample: on a 3-row corpus where every row is unusable the
call has made 30 attempts (ten times the row count) and still neither
returned nor raised a fatal error, refuting any bound on total retry
attempts at row-count scale. -/
theorem retry_unbounded_counterexample :
    getitem cfgBasic corpBad none 0 dZero 30 0 = GetResult.diverge := by decide

/-- C2 (amended): `get(index)` does not bound its retry attempts: on a
corpus where every row fails to open, the call never returns and never
raises a "no valid sample found" error, for every attempt bound. -/
theorem retry_loop_never_fatal (cfg : Config) (c : Corpus)
    (st : Option (Shape4 → Shape4)) (sd : ℤ) (d : ℕ → ℤ) (fuel : ℕ) (i : ℤ)
    (hbad : ∀ j, c.openFile j = none) :
    getitem cfg c st sd d fuel i = GetResult.diverge := by
  unfold getitem
  rw [getLoop_allOpenFail cfg c d hbad fuel 0 i _]

/-- Witness for the amended C2 on the concrete all-corrupt corpus. -/
theorem retry_loop_never_fatal_witness :
    getitem cfgBasic corpBad none 0 dZero 7 0 = GetResult.diverge :=
  retry_loop_never_fatal cfgBasic corpBad none 0 dZero 7 0 (fun _ => rfl)

/-- C3 counterexample: with a 29 fps source, base stride 1 and target fps
10, the code computes stride `int(1 * 29 / 10) = 2` (truncation) where the
claimed round-to-nearest formula gives 3; a full retrieval on such a file
returns `frame_stride = 2`. -/
theorem rescale_round_counterexample :
    max (rescaleStride (some 10) 1 29) 1 = 2 ∧
    specRoundStride 1 29 10 = 3 ∧
    (match getitem cfg3 corp3 none 0 dZero 3 0 with
     | GetResult.ok smp => smp.frame_stride
     | _ => 0) = 2 := by
  refine ⟨?_, ?_, ?_⟩
  · norm_num [rescaleStride, pyInt]
  · rw [specRoundStride, round_eq]
    norm_num
  · rw [run3]
    rfl

/-- C3 (amended): when a fixed target fps is configured the stride is
rescaled by `int(stride * source_fps / target_fps)` — truncation toward
zero, which on non-negative inputs is the floor, not round-to-nearest —
then clamped to a minimum of 1, so a target fps exceeding
`stride * source_fps` still yields stride 1. -/
theorem rescale_truncates (s : ℤ) (fps f : ℚ)
    (hs : 0 ≤ s) (hfps : 0 ≤ fps) (hf : 0 < f) :
    clampedStride (some f) s fps = max ⌊(s : ℚ) * (fps / f)⌋ 1 ∧
    ((s : ℚ) * fps < f → clampedStride (some f) s fps = 1) := by
  have hq : 0 ≤ (s : ℚ) * (fps / f) :=
    mul_nonneg (by exact_mod_cast hs) (div_nonneg hfps hf.le)
  constructor
  · simp only [clampedStride, rescaleStride, pyInt, if_pos hq]
  · intro hlt
    have h1 : (s : ℚ) * (fps / f) < 1 := by
      rw [← mul_div_assoc]
      exact (div_lt_one hf).2 hlt
    have h0 : ⌊(s : ℚ) * (fps / f)⌋ = 0 := Int.floor_eq_zero_iff.2 ⟨hq, h1⟩
    simp only [clampedStride, rescaleStride, pyInt, if_pos hq, h0]
    decide

/-- Witness for the amended C3 at stride 1, source 24 fps, target 30 fps:
the rescale truncates to 0 and the clamp yields stride 1. -/
theorem rescale_truncates_witness :
    clampedStride (some 30) 1 24 = max ⌊((1 : ℤ) : ℚ) * ((24 : ℚ) / 30)⌋ 1 ∧
    (((1 : ℤ) : ℚ) * 24 < 30 → clampedStride (some 30) 1 24 = 1) :=
  rescale_truncates 1 24 30 (by decide) (by decide) (by decide)

/-- C5: for a file accepted by the length check (`video_length ≤
frame_count`) that is shorter than the required span, the fallback stride
`frame_count // video_length` gives a recomputed required span that fits
in the file, a non-negative slack, and — for any start offset within the
slack — frame indices that are all strictly below `frame_count`. -/
theorem fallback_window_safe (L fn : ℕ) (s start : ℤ)
    (hL : 1 ≤ L) (hfn : L ≤ fn)
    (hshort : (fn : ℤ) < requiredOf L s)
    (hstart0 : 0 ≤ start)
    (hstart : start ≤ (fn : ℤ) - requiredOf L ((fallbackStride fn L : ℕ) : ℤ)) :
    requiredOf L ((fallbackStride fn L : ℕ) : ℤ) ≤ (fn : ℤ) ∧
    0 ≤ (fn : ℤ) - requiredOf L ((fallbackStride fn L : ℕ) : ℤ) ∧
    (frameIndices L start ((fallbackStride fn L : ℕ) : ℤ)).all
      (fun idx => decide (idx < (fn : ℤ))) = true := by
  have hL' : 0 < L := hL
  have h1 : 1 ≤ fallbackStride fn L := (Nat.one_le_div_iff hL').2 hfn
  have h2 : fallbackStride fn L * L ≤ fn := Nat.div_mul_le_self fn L
  have h1' : (1 : ℤ) ≤ ((fallbackStride fn L : ℕ) : ℤ) := by exact_mod_cast h1
  have h2' : ((fallbackStride fn L : ℕ) : ℤ) * (L : ℤ) ≤ (fn : ℤ) := by
    exact_mod_cast h2
  have hexp : requiredOf L ((fallbackStride fn L : ℕ) : ℤ) =
      ((fallbackStride fn L : ℕ) : ℤ) * (L : ℤ) -
        ((fallbackStride fn L : ℕ) : ℤ) + 1 := by
    unfold requiredOf
    ring
  have hreq : requiredOf L ((fallbackStride fn L : ℕ) : ℤ) ≤ (fn : ℤ) := by
    rw [hexp]
    linarith
  refine ⟨hreq, by linarith, ?_⟩
  simp only [List.all_eq_true, decide_eq_true_eq]
  intro idx hidx
  simp only [frameIndices, List.mem_map, List.mem_range] at hidx
  obtain ⟨j, hj, rfl⟩ := hidx
  have hj' : (j : ℤ) ≤ (L : ℤ) - 1 := by
    have : (j : ℤ) < (L : ℤ) := by exact_mod_cast hj
    linarith
  have hmul : ((fallbackStride fn L : ℕ) : ℤ) * (j : ℤ) ≤
      ((fallbackStride fn L : ℕ) : ℤ) * ((L : ℤ) - 1) := by
    apply mul_le_mul_of_nonneg_left hj'
    linarith
  have hrexp : requiredOf L ((fallbackStride fn L : ℕ) : ℤ) =
      ((fallbackStride fn L : ℕ) : ℤ) * ((L : ℤ) - 1) + 1 := rfl
  linarith [hstart, hmul, hrexp ▸ hreq]

/-- Witness for C5: clip length 16, a 50-frame file, requested stride 6
(required span 91 > 50), fallback stride 3, required span 46, slack 4,
start 4: all indices fit below 50. -/
theorem fallback_window_safe_witness :
    requiredOf 16 ((fallbackStride 50 16 : ℕ) : ℤ) ≤ (50 : ℤ) ∧
    0 ≤ ((50 : ℕ) : ℤ) - requiredOf 16 ((fallbackStride 50 16 : ℕ) : ℤ) ∧
    (frameIndices 16 4 ((fallbackStride 50 16 : ℕ) : ℤ)).all
      (fun idx => decide (idx < ((50 : ℕ) : ℤ))) = true :=
  fallback_window_safe 16 50 6 4 (by decide) (by decide) (by decide)
    (by decide) (by decide)

/-- C1: for every index on which retrieval returns successfully, the
returned sample's video tensor has exactly `video_length` frames along the
time axis and, whenever a target resolution is configured, its (height,
width) equals exactly that resolution.  The spatial transform is the
black-box collaborator of the spec, whose interface preserves the time
axis. -/
theorem sample_shape_invariant (cfg : Config) (c : Corpus)
    (st : Option (Shape4 → Shape4)) (sd : ℤ) (d : ℕ → ℤ) (fuel : ℕ) (i : ℤ)
    (smp : Sample)
    (hst : ∀ sh, (transApply st sh).d1 = sh.d1)
    (h : getitem cfg c st sd d fuel i = GetResult.ok smp) :
    smp.videoShape.d1 = cfg.video_length ∧
    (cfg.resolution = none ∨
     cfg.resolution = some (smp.videoShape.d2, smp.videoShape.d3)) := by
  unfold getitem at h
  cases hg : getLoop cfg c d fuel 0 i
      (if cfg.random_fs then sd else cfg.frame_stride) with
  | none => rw [hg] at h; exact GetResult.noConfusion h
  | some out =>
    rw [hg] at h
    obtain ⟨hsmp, htc, hres⟩ := postprocess_ok _ _ _ _ h
    subst hsmp
    constructor
    · show (transApply st (permuted out)).d1 = _
      rw [hst]
      exact htc
    · cases hr : cfg.resolution with
      | none => exact Or.inl rfl
      | some p =>
        obtain ⟨rh, rw2⟩ := p
        rw [hr] at hres
        simp only [resolutionOk, Bool.and_eq_true, beq_iff_eq] at hres
        right
        show some (rh, rw2) = some ((transApply st (permuted out)).d2,
          (transApply st (permuted out)).d3)
        rw [hres.1, hres.2]

/-- Witness for C1 on the concrete one-row corpus. -/
theorem sample_shape_invariant_witness :
    sampleW.videoShape.d1 = cfgW.video_length ∧
    (cfgW.resolution = none ∨
     cfgW.resolution = some (sampleW.videoShape.d2, sampleW.videoShape.d3)) :=
  sample_shape_invariant cfgW corpW none 0 dZero 3 0 sampleW (fun _ => rfl) runW

/-- C6: the `frame_stride` field of every returned sample is at least 1 —
whether it comes from the clamp after the fixed-fps rescale or from the
fallback stride `frame_count // video_length` taken after the clamp. -/
theorem frame_stride_ge_one (cfg : Config) (c : Corpus)
    (st : Option (Shape4 → Shape4)) (sd : ℤ) (d : ℕ → ℤ) (fuel : ℕ) (i : ℤ)
    (smp : Sample)
    (h : getitem cfg c st sd d fuel i = GetResult.ok smp) :
    1 ≤ smp.frame_stride := by
  unfold getitem at h
  cases hg : getLoop cfg c d fuel 0 i
      (if cfg.random_fs then sd else cfg.frame_stride) with
  | none => rw [hg] at h; exact GetResult.noConfusion h
  | some out =>
    rw [hg] at h
    obtain ⟨hsmp, _, _⟩ := postprocess_ok _ _ _ _ h
    subst hsmp
    exact (getLoop_success _ _ _ _ _ _ _ _ hg).1

/-- Witness for C6 on the concrete one-row corpus. -/
theorem frame_stride_ge_one_witness : 1 ≤ sampleW.frame_stride :=
  frame_stride_ge_one cfgW corpW none 0 dZero 3 0 sampleW runW

/-- C7: for every successful sample the reported fps is
`floor(source_fps / effective_stride)` — where the effective stride is the
same working stride the loop used to build the frame indices and which is
returned in the sample — capped at the configured fps ceiling when one is
set (hence never exceeding it), and it is an integer. -/
theorem fps_report_formula (cfg : Config) (c : Corpus)
    (st : Option (Shape4 → Shape4)) (d : ℕ → ℤ) (fuel t : ℕ) (i s0 : ℤ)
    (out : LoopOut) (smp : Sample)
    (hloop : getLoop cfg c d fuel t i s0 = some out)
    (hpost : postprocess cfg st out = GetResult.ok smp) :
    smp.frame_stride = out.frame_stride ∧
    smp.fps = clipFps cfg.fps_max ((⌊out.fps_ori / (out.frame_stride : ℚ)⌋ : ℤ) : ℚ) ∧
    (cfg.fps_max.elim True fun m => smp.fps ≤ (m : ℚ)) ∧
    smp.fps.den = 1 := by
  obtain ⟨hsmp, _, _⟩ := postprocess_ok _ _ _ _ hpost
  subst hsmp
  refine ⟨rfl, rfl, ?_, ?_⟩
  · cases hm : cfg.fps_max with
    | none => exact trivial
    | some m =>
      show clipFps (some m) ((⌊out.fps_ori / (out.frame_stride : ℚ)⌋ : ℤ) : ℚ) ≤ (m : ℚ)
      simp only [clipFps]
      split_ifs with hq
      · exact le_refl _
      · exact le_of_not_lt hq
  · show (clipFps cfg.fps_max ((⌊out.fps_ori / (out.frame_stride : ℚ)⌋ : ℤ) : ℚ)).den = 1
    cases cfg.fps_max with
    | none => exact Rat.den_intCast _
    | some m =>
      simp only [clipFps]
      split_ifs with hq
      · exact Rat.den_intCast _
      · exact Rat.den_intCast _

/-- Witness for C7 on the concrete one-row corpus. -/
theorem fps_report_formula_witness :
    sampleW.frame_stride = outW.frame_stride ∧
    sampleW.fps = clipFps cfgW.fps_max ((⌊outW.fps_ori / (outW.frame_stride : ℚ)⌋ : ℤ) : ℚ) ∧
    (cfgW.fps_max.elim True fun m => sampleW.fps ≤ (m : ℚ)) ∧
    sampleW.fps.den = 1 :=
  fps_report_formula cfgW corpW none dZero 3 0 0 2 outW sampleW loopW postW

/-- C4 counterexample: with randomization enabled, stride bounds [1, 5]
and draws 1 (call time / attempt 0) and 5 (attempt 1), on a corpus whose
first row fails to open the code returns `frame_stride = 1` — the single
per-call draw — whereas a per-attempt fresh draw would give 5. -/
theorem stride_draw_counterexample :
    (1 : ℤ) ≤ sds4 0 ∧ sds4 0 ≤ cfg4.frame_stride ∧
    (1 : ℤ) ≤ sds4 1 ∧ sds4 1 ≤ cfg4.frame_stride ∧
    (match getitem cfg4 corp4 none (sds4 0) dZero 3 0 with
     | GetResult.ok smp => smp.frame_stride
     | _ => 0) = 1 ∧
    (match specLoopFreshDraw cfg4 corp4 sds4 dZero 3 0 0 with
     | some out => out.frame_stride
     | none => 0) = 5 := by
  refine ⟨by decide, by decide, by decide, by decide, ?_, run4spec⟩
  rw [run4a]
  rfl

/-- Condition on `corp4` used by the amended C4: every row either fails to
open or succeeds without fallback and with every decode succeeding. -/
theorem corp4_classes : ∀ j : ℕ, corp4.openFile j = none ∨
    ∃ vf, corp4.openFile j = some vf ∧
      (vf.frame_count < cfg4.video_length ∨
       (¬ ((vf.frame_count : ℤ) < requiredOf cfg4.video_length (max 3 1)) ∧
        ∀ l, vf.decode_ok l = true)) := by
  intro j
  by_cases hj : j = 0
  · left
    simp [corp4, hj]
  · right
    exact ⟨vfT, by simp [corp4, hj], Or.inr ⟨by decide, fun _ => rfl⟩⟩

/-- C4 (amended): the working stride is initialized exactly once per
call, before the retry loop — with the single uniform draw when
randomization is enabled, with the fixed configured stride when it is
disabled — and is then carried across retry attempts, never re-drawn.
With fixed-fps off, on a corpus whose rows either fail to open, are
shorter than the clip length, or succeed without fallback, the returned
`frame_stride` is the clamped initial stride `max s0 1`, independent of
every per-attempt draw. -/
theorem stride_drawn_once (cfg : Config) (c : Corpus)
    (st : Option (Shape4 → Shape4)) (sd : ℤ) (d : ℕ → ℤ) (fuel : ℕ) (i : ℤ)
    (smp : Sample) (s0 : ℤ)
    (hs0 : s0 = if cfg.random_fs then sd else cfg.frame_stride)
    (hf : cfg.fixed_fps = none)
    (hc : ∀ j : ℕ, c.openFile j = none ∨
      ∃ vf, c.openFile j = some vf ∧
        (vf.frame_count < cfg.video_length ∨
         (¬ ((vf.frame_count : ℤ) < requiredOf cfg.video_length (max s0 1)) ∧
          ∀ l, vf.decode_ok l = true)))
    (h : getitem cfg c st sd d fuel i = GetResult.ok smp) :
    smp.frame_stride = max s0 1 := by
  have key : ∀ (fuel t : ℕ) (i : ℤ) (out : LoopOut),
      getLoop cfg c d fuel t i s0 = some out → out.frame_stride = max s0 1 := by
    intro fuel
    induction fuel with
    | zero => intro t i out hg; exact Option.noConfusion hg
    | succ fuel ih =>
      intro t i out hg
      rw [getLoop] at hg
      rcases hc (i % (c.rowCount : ℤ)).toNat with hnone | ⟨vf, hvf, hshort | ⟨hfit, hdec⟩⟩
      · have ha : attempt cfg c (d t) i s0 =
            StepResult.retry (i % (c.rowCount : ℤ) + 1) s0 := by
          unfold attempt
          simp only [hnone]
        rw [ha] at hg
        exact ih _ _ _ hg
      · have ha : attempt cfg c (d t) i s0 =
            StepResult.retry (i % (c.rowCount : ℤ) + 1) s0 := by
          unfold attempt
          simp only [hvf]
          rw [if_pos hshort]
        rw [ha] at hg
        exact ih _ _ _ hg
      · have hcs : clampedStride cfg.fixed_fps s0 vf.avg_fps = max s0 1 := by
          rw [hf]
          rfl
        have hlen : ¬ vf.frame_count < cfg.video_length := by
          intro hsh
          apply hfit
          have h1 : (1 : ℤ) ≤ max s0 1 := le_max_right _ _
          have hfn : (vf.frame_count : ℤ) < (cfg.video_length : ℤ) := by
            exact_mod_cast hsh
          have hL1 : (1 : ℤ) ≤ (cfg.video_length : ℤ) := by
            have hnn : (0 : ℤ) ≤ (vf.frame_count : ℤ) := Int.natCast_nonneg _
            linarith
          have h2 : (1 : ℤ) * ((cfg.video_length : ℤ) - 1) ≤
              max s0 1 * ((cfg.video_length : ℤ) - 1) :=
            mul_le_mul_of_nonneg_right h1 (by linarith)
          unfold requiredOf
          linarith
        have ha : attempt cfg c (d t) i s0 =
            selectWindow cfg (d t) vf
              (getVideoPath cfg.data_dir (c.rows (i % (c.rowCount : ℤ)).toNat))
              (c.rows (i % (c.rowCount : ℤ)).toNat).caption
              (i % (c.rowCount : ℤ)) (max s0 1)
              (requiredOf cfg.video_length (max s0 1)) := by
          unfold attempt
          simp only [hvf]
          rw [if_neg hlen]
          unfold afterOpen
          rw [hcs, if_neg hfit]
        split at hg
        · rename_i out' heq
          rw [ha] at heq
          have hval := (selectWindow_success _ _ _ _ _ _ _ _ _ heq).1
          injection hg with hg2
          rw [← hg2, hval]
        · rename_i i' s' heq
          rw [ha] at heq
          unfold selectWindow at heq
          rw [hdec, if_pos rfl] at heq
          exact StepResult.noConfusion heq
  unfold getitem at h
  rw [← hs0] at h
  cases hg : getLoop cfg c d fuel 0 i s0 with
  | none => rw [hg] at h; exact GetResult.noConfusion h
  | some out =>
    rw [hg] at h
    obtain ⟨hsmp, _, _⟩ := postprocess_ok _ _ _ _ h
    subst hsmp
    exact key fuel 0 i out hg

/-- Witness for the amended C4: randomization enabled, call-time draw 3 on
the two-row corpus (first row unreadable): the sample returns
`frame_stride = max 3 1`, untouched by any per-attempt draw. -/
theorem stride_drawn_once_witness : sample4.frame_stride = max 3 1 :=
  stride_drawn_once cfg4 corp4 none 3 dZero 3 0 sample4 3 rfl rfl
    corp4_classes run4

/-- C10: within one call the working stride is not reset between retry
attempts: an attempt that fails at decode after the fixed-fps rescale
hands the rescaled-and-clamped stride — not the base stride — to the next
attempt, which applies the rescale again on top of it, cumulatively. -/
theorem stride_carries_over (cfg : Config) (c : Corpus) (d : ℕ → ℤ)
    (fuel t : ℕ) (i s0 : ℤ) (vfa vfb : VideoFile) (f : ℚ)
    (hf : cfg.fixed_fps = some f)
    (hopen0 : c.openFile (i % (c.rowCount : ℤ)).toNat = some vfa)
    (hlen0 : ¬ vfa.frame_count < cfg.video_length)
    (hfit0 : ¬ ((vfa.frame_count : ℤ) <
      requiredOf cfg.video_length (clampedStride cfg.fixed_fps s0 vfa.avg_fps)))
    (hdec0 : ∀ l, vfa.decode_ok l = false)
    (hopen1 : c.openFile ((i % (c.rowCount : ℤ) + 1) % (c.rowCount : ℤ)).toNat = some vfb)
    (hlen1 : ¬ vfb.frame_count < cfg.video_length)
    (hfit1 : ¬ ((vfb.frame_count : ℤ) <
      requiredOf cfg.video_length (clampedStride cfg.fixed_fps
        (clampedStride cfg.fixed_fps s0 vfa.avg_fps) vfb.avg_fps)))
    (hdec1 : ∀ l, vfb.decode_ok l = true) :
    attempt cfg c (d t) i s0 =
      StepResult.retry (i % (c.rowCount : ℤ) + 1)
        (clampedStride cfg.fixed_fps s0 vfa.avg_fps) ∧
    ∃ out, getLoop cfg c d (fuel + 2) t i s0 = some out ∧
      out.frame_stride =
        clampedStride cfg.fixed_fps
          (clampedStride cfg.fixed_fps s0 vfa.avg_fps) vfb.avg_fps := by
  have ha0 : attempt cfg c (d t) i s0 =
      StepResult.retry (i % (c.rowCount : ℤ) + 1)
        (clampedStride cfg.fixed_fps s0 vfa.avg_fps) := by
    unfold attempt
    simp only [hopen0]
    rw [if_neg hlen0]
    unfold afterOpen
    rw [if_neg hfit0]
    unfold selectWindow
    rw [hdec0]
    simp
  have ha1 : attempt cfg c (d (t + 1)) (i % (c.rowCount : ℤ) + 1)
      (clampedStride cfg.fixed_fps s0 vfa.avg_fps) =
      selectWindow cfg (d (t + 1)) vfb
        (getVideoPath cfg.data_dir
          (c.rows ((i % (c.rowCount : ℤ) + 1) % (c.rowCount : ℤ)).toNat))
        (c.rows ((i % (c.rowCount : ℤ) + 1) % (c.rowCount : ℤ)).toNat).caption
        ((i % (c.rowCount : ℤ) + 1) % (c.rowCount : ℤ))
        (clampedStride cfg.fixed_fps
          (clampedStride cfg.fixed_fps s0 vfa.avg_fps) vfb.avg_fps)
        (requiredOf cfg.video_length (clampedStride cfg.fixed_fps
          (clampedStride cfg.fixed_fps s0 vfa.avg_fps) vfb.avg_fps)) := by
    unfold attempt
    simp only [hopen1]
    rw [if_neg hlen1]
    unfold afterOpen
    rw [if_neg hfit1]
  have step2 : ∃ out, attempt cfg c (d (t + 1)) (i % (c.rowCount : ℤ) + 1)
      (clampedStride cfg.fixed_fps s0 vfa.avg_fps) = StepResult.success out ∧
      out.frame_stride = clampedStride cfg.fixed_fps
        (clampedStride cfg.fixed_fps s0 vfa.avg_fps) vfb.avg_fps := by
    rw [ha1]
    unfold selectWindow
    rw [hdec1, if_pos rfl]
    exact ⟨_, rfl, rfl⟩
  have step1 : getLoop cfg c d (fuel + 1 + 1) t i s0 =
      getLoop cfg c d (fuel + 1) (t + 1) (i % (c.rowCount : ℤ) + 1)
        (clampedStride cfg.fixed_fps s0 vfa.avg_fps) := by
    rw [getLoop, ha0]
  obtain ⟨out, hmid, hstr⟩ := step2
  refine ⟨ha0, out, ?_, hstr⟩
  rw [(rfl : fuel + 2 = fuel + 1 + 1), step1, getLoop, hmid]

/-- Witness for C10: base stride 1, target fps 10, two 30 fps rows; the
first attempt rescales 1 to 3 and fails at decode, the second rescales 3
to 9 and succeeds — the factor 3 is applied cumulatively. -/
theorem stride_carries_over_witness :
    attempt cfg10 corp10 (dZero 0) 0 1 =
      StepResult.retry ((0 : ℤ) % (corp10.rowCount : ℤ) + 1)
        (clampedStride cfg10.fixed_fps 1 vf0.avg_fps) ∧
    ∃ out, getLoop cfg10 corp10 dZero (0 + 2) 0 0 1 = some out ∧
      out.frame_stride = clampedStride cfg10.fixed_fps
        (clampedStride cfg10.fixed_fps 1 vf0.avg_fps) vf1.avg_fps :=
  stride_carries_over cfg10 corp10 dZero 0 0 0 1 vf0 vf1 10 rfl rfl (by decide)
    (by norm_num [clampedStride, rescaleStride, pyInt, requiredOf, cfg10, vf0])
    (fun _ => rfl) rfl (by decide)
    (by norm_num [clampedStride, rescaleStride, pyInt, requiredOf, cfg10, vf0, vf1])
    (fun _ => rfl)

end WebVid
